import Mathlib

/-!
Shallow embedding of the auroadmin chat dispatch server
(`src/unnamed/part_000`, a Next.js route handler) and the chat client
(`src/components/AgentChatWidget.tsx`).

Modelling conventions:
* Supabase results `{ data, error }` are modelled as `Except String α`
  (the `error.message` string on the error side), or, where the source
  inspects `data` that can be `null`, as an explicit pair of options.
* Timestamps (ISO strings in the source, compared lexicographically by
  PostgREST which agrees with chronological order for this fixed format)
  are modelled as integers (milliseconds since epoch).
* JavaScript `x || d` on a string-or-nullish value is falsy on both the
  empty string and null/undefined; `jsOrString` reproduces that.
* A handler that `throw`s is an `Except.error`; the route handler does
  not catch it, so it surfaces as a 500-equivalent.
-/

/-- JavaScript `x || d` where `x : string | null | undefined`:
the empty string is falsy, so it also falls back to `d`. -/
def jsOrString (x : Option String) (d : String) : String :=
  match x with
  | none => d
  | some s => if s = "" then d else s

/-- Row of the `machines` table (the columns this system touches). -/
structure Machine where
  machine_id : String
  laundromat_id : String
  machine_type : String
  current_status : String
  average_monthly_revenue : Option ℚ
  created_at : Int
  updated_at : Int
deriving Repr, DecidableEq

/-- Row of the `bookings` table (the columns this system touches). -/
structure Booking where
  booking_id : String
  status : String
  created_at : Int
deriving Repr, DecidableEq

/-- The slice of the backing store the self-healing routine updates. -/
structure Store where
  machines : List Machine
  bookings : List Booking
deriving Repr, DecidableEq

/-- Milliseconds in 24 hours, the machine staleness threshold of
`triggerSelfHealing` (`24 * 60 * 60 * 1000`). -/
def msPerDay : Int := 24 * 60 * 60 * 1000

/-- Milliseconds in 7 days, the booking staleness threshold of
`triggerSelfHealing` (`7 * 24 * 60 * 60 * 1000`). -/
def msPerWeek : Int := 7 * 24 * 60 * 60 * 1000

/-- The row-level effect of the first `update` of `triggerSelfHealing`:
`current_status` is set to `"Available"` on rows matching
`eq('current_status', 'In Use')` and `lt('updated_at', now - 24h)`. -/
def healMachine (now : Int) (m : Machine) : Machine :=
  if m.current_status = "In Use" ∧ m.updated_at < now - msPerDay then
    { m with current_status := "Available" }
  else m

/-- The row-level effect of the second `update` of `triggerSelfHealing`:
`status` is set to `"Cancelled"` on rows matching
`eq('status', 'Pending')` and `lt('created_at', now - 7d)`. -/
def healBooking (now : Int) (b : Booking) : Booking :=
  if b.status = "Pending" ∧ b.created_at < now - msPerWeek then
    { b with status := "Cancelled" }
  else b

/-- Whether a machine row matches the stuck-machine update's filter. -/
def stuckMachineFilter (now : Int) (m : Machine) : Bool :=
  m.current_status = "In Use" && m.updated_at < now - msPerDay

/-- Whether a booking row matches the stale-booking update's filter. -/
def staleBookingFilter (now : Int) (b : Booking) : Bool :=
  b.status = "Pending" && b.created_at < now - msPerWeek

/-- `triggerSelfHealing`, embedded with explicit store-layer failure
injection: `stuckError` / `staleError` are the `error.message`s of the
two supabase `update` calls when they fail (`none` = success).  Both
updates are issued unconditionally, in order; an erroring update leaves
its table unchanged and yields `data = null`, a successful one applies
the row-level update and yields the affected rows via `.select()`.
Only after both does the source check `if (stuckError || staleError)`
and `throw new Error('Failed to complete self-healing routine')`;
otherwise it reports `stuckMachines?.length || 0` and
`staleBookings?.length || 0` in the summary string. -/
def triggerSelfHealing (now : Int) (s : Store)
    (stuckError staleError : Option String) : Store × Except String String :=
  let stuckMachines : Option (List Machine) :=
    match stuckError with
    | some _ => none
    | none => some (s.machines.filter (stuckMachineFilter now))
  let machines1 : List Machine :=
    match stuckError with
    | some _ => s.machines
    | none => s.machines.map (healMachine now)
  let staleBookings : Option (List Booking) :=
    match staleError with
    | some _ => none
    | none => some (s.bookings.filter (staleBookingFilter now))
  let bookings1 : List Booking :=
    match staleError with
    | some _ => s.bookings
    | none => s.bookings.map (healBooking now)
  let s1 : Store := { machines := machines1, bookings := bookings1 }
  if stuckError.isSome || staleError.isSome then
    (s1, .error "Failed to complete self-healing routine")
  else
    (s1, .ok ("Self-healing complete. Reset "
      ++ toString ((stuckMachines.getD []).length)
      ++ " stuck machines and "
      ++ toString ((staleBookings.getD []).length)
      ++ " stale bookings."))

/-- A machine row stuck "In Use" since the epoch, used to instantiate
the self-healing theorems. -/
def sampleStaleMachine : Machine :=
  { machine_id := "M-1", laundromat_id := "L-1", machine_type := "Washer",
    current_status := "In Use", average_monthly_revenue := none,
    created_at := 0, updated_at := 0 }

/-- A machine row whose `updated_at` is within the last 24 hours of the
sample clock `200000000000`. -/
def sampleRecentMachine : Machine :=
  { machine_id := "M-2", laundromat_id := "L-1", machine_type := "Dryer",
    current_status := "In Use", average_monthly_revenue := none,
    created_at := 0, updated_at := 199999999999 }

/-- A booking row pending since the epoch. -/
def sampleStaleBooking : Booking :=
  { booking_id := "B-1", status := "Pending", created_at := 0 }

/-- A booking row created within the last 7 days of the sample clock. -/
def sampleRecentBooking : Booking :=
  { booking_id := "B-2", status := "Pending", created_at := 199999999999 }

/-- Is a supabase result non-erroring (`!x.error` in the source)? -/
def exceptOk {α β : Type} : Except α β → Bool
  | .ok _ => true
  | .error _ => false

/-- `addLaundromat`: one insert; store error `e` is rethrown as
`"Failed to add laundromat: " ++ e`, success yields the summary
string naming the key fields. -/
def addLaundromat (name address borough : String) (phone : Option String)
    (res : Except String Unit) : Except String String :=
  match phone, res with
  | _, .error e => .error ("Failed to add laundromat: " ++ e)
  | _, .ok _ => .ok ("Laundromat \"" ++ name ++ "\" at " ++ address
      ++ " (" ++ borough ++ ") added successfully.")

/-- The row `addMachine` inserts: `current_status || 'Available'`
(JavaScript `||`, so the empty string also defaults), both timestamps
stamped to the current time; `average_monthly_revenue` is not part of
the insert payload (column default, null). -/
def addMachineRow (machine_id laundromat_id machine_type : String)
    (current_status : Option String) (now : Int) : Machine :=
  { machine_id, laundromat_id, machine_type,
    current_status := jsOrString current_status "Available",
    average_monthly_revenue := none,
    created_at := now, updated_at := now }

/-- `addMachine`: inserts `addMachineRow`; store error `e` is rethrown
as `"Failed to add machine: " ++ e`. Returns the inserted row paired
with the handler outcome. -/
def addMachine (machine_id laundromat_id machine_type : String)
    (current_status : Option String) (now : Int)
    (res : Except String Unit) : Machine × Except String String :=
  (addMachineRow machine_id laundromat_id machine_type current_status now,
    match res with
    | .error e => .error ("Failed to add machine: " ++ e)
    | .ok _ => .ok ("Machine \"" ++ machine_id ++ "\" (" ++ machine_type
        ++ ") added to laundromat " ++ laundromat_id ++ "."))

/-- `addUser`: one insert; store error `e` is rethrown as
`"Failed to add user: " ++ e`. -/
def addUser (full_name email : String) (phone : Option String)
    (res : Except String Unit) : Except String String :=
  match phone, res with
  | _, .error e => .error ("Failed to add user: " ++ e)
  | _, .ok _ => .ok ("User \"" ++ full_name ++ "\" (" ++ email
      ++ ") added successfully.")

/-- `addDriver`: one insert; store error `e` is rethrown as
`"Failed to add driver: " ++ e`. -/
def addDriver (full_name phone : String) (email : Option String)
    (res : Except String Unit) : Except String String :=
  match email, res with
  | _, .error e => .error ("Failed to add driver: " ++ e)
  | _, .ok _ => .ok ("Driver \"" ++ full_name ++ "\" (" ++ phone
      ++ ") added successfully.")

/-- The server-side filter of `getOfflineMachines`'s select
(`eq('current_status', 'Offline')`). -/
def selectOfflineMachines (machines : List Machine) : List Machine :=
  machines.filter (fun m => m.current_status == "Offline")

/-- `getOfflineMachines`: store error `e` is rethrown as
`"Failed to get offline machines: " ++ e`; otherwise the summary
reports `data.length` and the comma-joined `machine_id`s of the same
`data`. -/
def getOfflineMachines (res : Except String (List Machine)) :
    Except String String :=
  match res with
  | .error e => .error ("Failed to get offline machines: " ++ e)
  | .ok data => .ok ("Found " ++ toString data.length
      ++ " offline machines: "
      ++ String.intercalate ", " (data.map (fun m => m.machine_id)))

/-- The server-side filter of `getPendingBookings`'s select
(`eq('status', 'Pending')`). -/
def selectPendingBookings (bookings : List Booking) : List Booking :=
  bookings.filter (fun b => b.status == "Pending")

/-- `getPendingBookings`: store error `e` is rethrown as
`"Failed to get pending bookings: " ++ e`; otherwise the summary
reports `data.length` and the comma-joined `booking_id`s of the same
`data`. -/
def getPendingBookings (res : Except String (List Booking)) :
    Except String String :=
  match res with
  | .error e => .error ("Failed to get pending bookings: " ++ e)
  | .ok data => .ok ("Found " ++ toString data.length
      ++ " pending bookings: "
      ++ String.intercalate ", " (data.map (fun b => b.booking_id)))

/-- `getSystemHealth`: four parallel selects; healthy iff none of the
four reports an error. Never throws: a store error only flips the
message to the degraded one. -/
def getSystemHealth (machinesStatus bookingsStatus usersStatus
    driversStatus : Except String Unit) : Except String String :=
  let allHealthy := exceptOk machinesStatus && exceptOk bookingsStatus
    && exceptOk usersStatus && exceptOk driversStatus
  if allHealthy then
    .ok "System is healthy. All services operational."
  else
    .ok "System issues detected. Some services may be degraded."

/-- One step of `getMachineAnalytics`'s `reduce`:
`acc[status] = (acc[status] || 0) + 1`, with JavaScript object keys
keeping first-insertion order. -/
def bumpStatus (acc : List (String × Nat)) (st : String) :
    List (String × Nat) :=
  if acc.any (fun p => p.1 == st) then
    acc.map (fun p => if p.1 == st then (p.1, p.2 + 1) else p)
  else
    acc ++ [(st, 1)]

/-- The in-memory group-count of `getMachineAnalytics`. -/
def countStatuses (statuses : List String) : List (String × Nat) :=
  statuses.foldl bumpStatus []

/-- How a registered handler terminates, as seen by the dispatch loop. -/
inductive HandlerOutcome where
  /-- The handler returned this summary string. -/
  | ok (msg : String)
  /-- The handler did `throw new Error(msg)`. -/
  | thrown (msg : String)
  /-- The handler died on an unhandled TypeError (null dereference),
  not a `new Error` it constructed itself. -/
  | crashed
deriving DecidableEq, Repr

/-- View an `Except`-style handler as a `HandlerOutcome`. -/
def outcomeOfExcept (r : Except String String) : HandlerOutcome :=
  match r with
  | .ok m => .ok m
  | .error m => .thrown m

/-- `getMachineAnalytics`: the source pipes the select through `.then`,
which replaces `error` with `null` and computes the counts from `data`.
On a store error supabase yields `data = null` (modelled as `none`), so
the `.then` callback's `data.reduce(...)` dereferences null and the
handler dies on a TypeError; the subsequent `if (error) throw` line is
unreachable because `error` was overwritten with `null`. -/
def getMachineAnalytics (data : Option (List String)) : HandlerOutcome :=
  match data with
  | none => .crashed
  | some statuses =>
    .ok ("Machine Status Distribution: "
      ++ String.intercalate ", " ((countStatuses statuses).map
          (fun p => p.1 ++ ": " ++ toString p.2)))

/-- Rounding of JavaScript `toFixed(2)` to integer cents: nearest,
ties toward positive infinity. -/
def centsOf (q : ℚ) : Int := Rat.floor (q * 100 + 1 / 2)

/-- Rendering of JavaScript `q.toFixed(2)` for a rational amount. -/
def toFixed2 (q : ℚ) : String :=
  let c := centsOf q
  let n := c.natAbs
  (if c < 0 then "-" else "") ++ toString (n / 100) ++ "."
    ++ (if n % 100 < 10 then "0" else "") ++ toString (n % 100)

/-- The select of `getRevenueAnalytics`: `average_monthly_revenue` of
the machines where that column is not null. -/
def selectRevenues (machines : List Machine) : List (Option ℚ) :=
  (machines.filter (fun m => m.average_monthly_revenue.isSome)).map
    (fun m => m.average_monthly_revenue)

/-- The numeric core of `getRevenueAnalytics`: total via `reduce` with
`(machine.average_monthly_revenue || 0)`, average with denominator
`data.length || 1`. -/
def revenueTotals (data : List (Option ℚ)) : ℚ × ℚ :=
  let totalRevenue := data.foldl (fun sum m => sum + m.getD 0) 0
  let avgRevenue := totalRevenue
    / (if data.length = 0 then 1 else (data.length : ℚ))
  (totalRevenue, avgRevenue)

/-- `getRevenueAnalytics`: store error `e` is rethrown as
`"Failed to get revenue analytics: " ++ e`; otherwise the summary
renders `revenueTotals` with `toFixed(2)`. -/
def getRevenueAnalytics (res : Except String (List (Option ℚ))) :
    Except String String :=
  match res with
  | .error e => .error ("Failed to get revenue analytics: " ++ e)
  | .ok data =>
    .ok ("Total Monthly Revenue: $" ++ toFixed2 (revenueTotals data).1
      ++ ", Average per Machine: $" ++ toFixed2 (revenueTotals data).2)

/-- The names registered in `functionMap`, in declaration order. -/
def registryNames : List String :=
  ["addLaundromat", "addMachine", "addUser", "addDriver",
   "getOfflineMachines", "getPendingBookings", "getSystemHealth",
   "triggerSelfHealing", "getMachineAnalytics", "getRevenueAnalytics"]

/-- The registered handlers whose error path rethrows
`"Failed to ...: " ++ e` around the store's message `e`. -/
def wrappingHandlerNames : List String :=
  ["addLaundromat", "addMachine", "addUser", "addDriver",
   "getOfflineMachines", "getPendingBookings", "getRevenueAnalytics"]

/-- Outcome of each registered handler when its store operation fails
with error message `e` (for `triggerSelfHealing`, the first of its two
updates; for `getSystemHealth`, the first of its four selects; for
`getMachineAnalytics`, the select whose error the `.then` discards,
leaving `data = null`). Each branch invokes the handler's embedding;
the argument values are irrelevant on the error path. -/
def handlerStoreError (name e : String) : HandlerOutcome :=
  if name == "addLaundromat" then
    outcomeOfExcept (addLaundromat "" "" "" none (.error e))
  else if name == "addMachine" then
    outcomeOfExcept (addMachine "" "" "" none 0 (.error e)).2
  else if name == "addUser" then
    outcomeOfExcept (addUser "" "" none (.error e))
  else if name == "addDriver" then
    outcomeOfExcept (addDriver "" "" none (.error e))
  else if name == "getOfflineMachines" then
    outcomeOfExcept (getOfflineMachines (.error e))
  else if name == "getPendingBookings" then
    outcomeOfExcept (getPendingBookings (.error e))
  else if name == "getSystemHealth" then
    outcomeOfExcept (getSystemHealth (.error e) (.ok ()) (.ok ()) (.ok ()))
  else if name == "triggerSelfHealing" then
    outcomeOfExcept (triggerSelfHealing 0 ⟨[], []⟩ (some e) none).2
  else if name == "getMachineAnalytics" then
    getMachineAnalytics none
  else if name == "getRevenueAnalytics" then
    outcomeOfExcept (getRevenueAnalytics (.error e))
  else
    .crashed

/-- Does `sub` occur as a contiguous substring of `s`? -/
def containsSub (s sub : String) : Bool :=
  (List.range (s.length + 1)).any
    (fun i => sub.data.isPrefixOf (s.data.drop i))

/-- A model-issued function-call signal: `choice.message.function_call`
with fields `name` and `arguments` (a raw JSON text). -/
structure FunctionCall where
  name : String
  arguments : String
deriving DecidableEq, Repr

/-- The `message` object of a completion choice. -/
structure ChoiceMessage where
  content : Option String
  function_call : Option FunctionCall
deriving DecidableEq, Repr

/-- The first `choices` entry of a completion response. -/
structure Choice where
  finish_reason : Option String
  message : Option ChoiceMessage
deriving DecidableEq, Repr

/-- The loosely-typed argument bag a handler receives: a JSON object
modelled as key/value pairs; `[]` is the empty bag `{}`. -/
def ArgsBag : Type := List (String × String)
deriving instance DecidableEq, Repr for ArgsBag

/-- The source's guard
`choice?.finish_reason === 'function_call' && choice.message?.function_call`:
the function call the response signals, if any. -/
def functionCallSignal (choice : Option Choice) : Option FunctionCall :=
  match choice with
  | none => none
  | some c =>
    if c.finish_reason = some "function_call" then
      match c.message with
      | some msg => msg.function_call
      | none => none
    else none

/-- `choice?.message?.content`. -/
def choiceContent (choice : Option Choice) : Option String :=
  (choice.bind (fun c => c.message)).bind (fun m => m.content)

/-- What one invocation of the POST route's dispatch logic did:
which property of `functionMap` it called as a handler (with which
parsed arguments) — a registered own key, or a member inherited from
`Object.prototype` when the truthy guard wrongly passes — and either
the `{reply}` it returned (`Except.ok`) or the unhandled failure that
escaped to the server boundary (`Except.error`). -/
structure DispatchTrace where
  invoked : Option (String × ArgsBag)
  result : Except String String

/-- The property names every plain object literal such as `functionMap`
inherits from `Object.prototype`. Looking any of these up on
`functionMap` yields the inherited member — a truthy value — even
though none of them is a registered handler. -/
def objectPrototypeProps : List String :=
  ["constructor", "hasOwnProperty", "isPrototypeOf",
   "propertyIsEnumerable", "toLocaleString", "toString", "valueOf",
   "__defineGetter__", "__defineSetter__", "__lookupGetter__",
   "__lookupSetter__", "__proto__"]

/-- The result of `functionMap[name](parsedArgs)` when `name` is not an
own key of `functionMap` but an inherited `Object.prototype` property.
The `__proto__` accessor yields `Object.prototype` itself, which is not
a function, so the call throws a TypeError; `__defineGetter__` and
`__defineSetter__` called with an undefined second argument also throw;
the remaining inherited members are functions that return normally when
applied to one object argument. -/
def callInheritedProp (name : String) : Except String Unit :=
  if name = "__proto__" then
    .error "TypeError: functionMap[name] is not a function"
  else if name = "__defineGetter__" then
    .error "TypeError: Getter must be a function"
  else if name = "__defineSetter__" then
    .error "TypeError: Setter must be a function"
  else
    .ok ()

/-- The function-dispatch portion of the POST route, after the first
completion response arrived. Parameters model the externals: `registry`
is the own-key set of `functionMap`; `parse` is `JSON.parse` on the
argument payload (its failure is swallowed: `parsedArgs` stays `{}`);
`run` invokes the named registered handler (an `Except.error` is a
thrown handler error, which the route does not catch);
`followupContent` is `followupData.choices?.[0]?.message?.content` from
the second completion call. The source's guard is the truthy test
`if (functionMap[name])`: it passes for the registered own keys AND for
every property inherited from `Object.prototype` (own keys shadow
inherited ones; the two name sets are disjoint, so the two tests below
reproduce the single truthy test). On an inherited name the route calls
the inherited member in place of a handler: if that call returns, the
loop proceeds to the follow-up completion like any handler; if it
throws (see `callInheritedProp`), the failure escapes uncaught. Only a
name that is neither registered nor inherited makes the lookup
`undefined` (falsy), so control falls through to the final reply: the
choice's content with the generic fallback for empty/absent
(JavaScript `||`). -/
def dispatchPOST (choice : Option Choice) (registry : List String)
    (parse : String → Except String ArgsBag)
    (run : String → ArgsBag → Except String String)
    (followupContent : Option String) : DispatchTrace :=
  match functionCallSignal choice with
  | some fc =>
    if fc.name ∈ registry then
      let parsedArgs : ArgsBag :=
        match parse fc.arguments with
        | .ok a => a
        | .error _ => []
      match run fc.name parsedArgs with
      | .error err =>
        { invoked := some (fc.name, parsedArgs), result := .error err }
      | .ok _ =>
        { invoked := some (fc.name, parsedArgs),
          result := .ok (jsOrString followupContent "Action completed.") }
    else if fc.name ∈ objectPrototypeProps then
      let parsedArgs : ArgsBag :=
        match parse fc.arguments with
        | .ok a => a
        | .error _ => []
      match callInheritedProp fc.name with
      | .error err =>
        { invoked := some (fc.name, parsedArgs), result := .error err }
      | .ok _ =>
        { invoked := some (fc.name, parsedArgs),
          result := .ok (jsOrString followupContent "Action completed.") }
    else
      { invoked := none,
        result := .ok (jsOrString (choiceContent choice)
          "Sorry, I could not generate a response.") }
  | none =>
    { invoked := none,
      result := .ok (jsOrString (choiceContent choice)
        "Sorry, I could not generate a response.") }

/-- One conversation turn held by the chat widget. -/
structure Turn where
  role : String
  content : String
deriving DecidableEq, Repr

/-- How the client's `fetch('/api/agent-chat', ...)` ended: a 2xx
response carrying `data.reply` (possibly absent), a non-2xx response
(`res.ok` false), or a rejected fetch (transport error). -/
inductive FetchOutcome where
  | ok (reply : Option String)
  | httpError
  | transportError
deriving DecidableEq, Repr

/-- The client's `agentChat`: on non-2xx it returns the fixed apology;
on 2xx it returns `data.reply || 'Sorry, I could not generate a
response.'`. It has no try/catch, so a rejected fetch propagates
(`Except.error`). -/
def agentChat (net : FetchOutcome) : Except Unit String :=
  match net with
  | .transportError => .error ()
  | .httpError => .ok "Sorry, there was an error contacting the agent."
  | .ok reply =>
    .ok (jsOrString reply "Sorry, I could not generate a response.")

/-- Result of one `sendMessage` invocation: the widget's history
afterwards and how many network calls were made. -/
structure SendOutcome where
  history : List Turn
  networkCalls : Nat
deriving DecidableEq, Repr

/-- JavaScript's `String.prototype.trim`: strip leading and trailing
whitespace (structural definition over the character list). -/
def jsTrim (s : String) : String :=
  ⟨((s.data.dropWhile Char.isWhitespace).reverse.dropWhile
      Char.isWhitespace).reverse⟩

/-- The widget's `sendMessage`: bail out on blank input; otherwise
append the user turn, make exactly one network call via `agentChat`,
and append the reply as an "agent" turn. `await agentChat(...)` is not
wrapped in try/catch, so when `agentChat` rejects (transport error) the
agent-turn append never runs and the history keeps only the user
turn. -/
def sendMessage (input : String) (history : List Turn)
    (net : FetchOutcome) : SendOutcome :=
  if jsTrim input = "" then
    { history := history, networkCalls := 0 }
  else
    let userMsg : Turn := { role := "user", content := input }
    let h1 := history ++ [userMsg]
    match agentChat net with
    | .ok reply =>
      { history := h1 ++ [{ role := "agent", content := reply }],
        networkCalls := 1 }
    | .error _ => { history := h1, networkCalls := 1 }

/-- A character list is a prefix of itself, in the executable sense. -/
theorem isPrefixOf_self (l : List Char) : l.isPrefixOf l = true := by
  induction l with
  | nil => rfl
  | cons a t ih => simp [List.isPrefixOf, ih]

/-- A string contains any suffix it was built from by prepending. -/
theorem containsSub_append (p e : String) : containsSub (p ++ e) e = true := by
  unfold containsSub
  rw [List.any_eq_true]
  refine ⟨p.length, ?_, ?_⟩
  · rw [List.mem_range, String.length_append]
    omega
  · rw [String.data_append]
    have hp : p.length = p.data.length := rfl
    rw [hp, List.drop_left]
    exact isPrefixOf_self e.data

/-- C1: invoking `triggerSelfHealing` maps the row-level healing update
over both tables; that update resets stale "In Use" machines (updated
more than 24h before `now`) to "Available" and cancels stale "Pending"
bookings (created more than 7 days before `now`), and leaves more
recently updated machines and more recently created bookings
unchanged. -/
theorem triggerSelfHealing_stale_reset (now : Int) (s : Store)
    (m : Machine) (b : Booking) :
    (triggerSelfHealing now s none none).1.machines
        = s.machines.map (healMachine now)
    ∧ (triggerSelfHealing now s none none).1.bookings
        = s.bookings.map (healBooking now)
    ∧ (m.current_status = "In Use" → m.updated_at < now - msPerDay →
        (healMachine now m).current_status = "Available")
    ∧ (now - msPerDay ≤ m.updated_at → healMachine now m = m)
    ∧ (b.status = "Pending" → b.created_at < now - msPerWeek →
        (healBooking now b).status = "Cancelled")
    ∧ (now - msPerWeek ≤ b.created_at → healBooking now b = b) := by
  refine ⟨rfl, rfl, ?_, ?_, ?_, ?_⟩
  · intro h1 h2
    simp [healMachine, h1, h2]
  · intro h
    have : ¬ m.updated_at < now - msPerDay := not_lt.mpr h
    simp [healMachine, this]
  · intro h1 h2
    simp [healBooking, h1, h2]
  · intro h
    have : ¬ b.created_at < now - msPerWeek := not_lt.mpr h
    simp [healBooking, this]

/-- Witness for C1 at the sample clock `now = 200000000000` ms: the
stale sample machine is reset, the recent one untouched; the stale
sample booking is cancelled, the recent one untouched. -/
theorem triggerSelfHealing_stale_reset_witness :
    (healMachine 200000000000 sampleStaleMachine).current_status = "Available"
    ∧ healMachine 200000000000 sampleRecentMachine = sampleRecentMachine
    ∧ (healBooking 200000000000 sampleStaleBooking).status = "Cancelled"
    ∧ healBooking 200000000000 sampleRecentBooking = sampleRecentBooking := by
  have h := triggerSelfHealing_stale_reset 200000000000 ⟨[], []⟩
    sampleStaleMachine sampleStaleBooking
  have h2 := triggerSelfHealing_stale_reset 200000000000 ⟨[], []⟩
    sampleRecentMachine sampleRecentBooking
  exact ⟨h.2.2.1 (by decide) (by decide), h2.2.2.2.1 (by decide),
    h.2.2.2.2.1 (by decide) (by decide), h2.2.2.2.2.2 (by decide)⟩

/-- C2: if either of `triggerSelfHealing`'s two updates fails at the
store layer, the handler throws the fixed generic message
`"Failed to complete self-healing routine"` (no counts, and no trace of
the store's own error `e`), while the store still carries the effect of
whichever update succeeded: a failing machine update leaves machines
untouched but the booking cancellation applied, and vice versa. -/
theorem triggerSelfHealing_no_rollback (now : Int) (s : Store) (e : String) :
    ((triggerSelfHealing now s (some e) none).2
        = .error "Failed to complete self-healing routine"
      ∧ (triggerSelfHealing now s (some e) none).1.machines = s.machines
      ∧ (triggerSelfHealing now s (some e) none).1.bookings
          = s.bookings.map (healBooking now))
    ∧ ((triggerSelfHealing now s none (some e)).2
        = .error "Failed to complete self-healing routine"
      ∧ (triggerSelfHealing now s none (some e)).1.machines
          = s.machines.map (healMachine now)
      ∧ (triggerSelfHealing now s none (some e)).1.bookings = s.bookings) :=
  ⟨⟨rfl, rfl, rfl⟩, ⟨rfl, rfl, rfl⟩⟩

/-- C3 counterexample: it is NOT the case that every registered handler
turns a store-layer error into a thrown failure whose message contains
the store's message. `triggerSelfHealing` on store error `"boom"`
throws the fixed text `"Failed to complete self-healing routine"`,
which does not contain `"boom"`. -/
theorem handler_wraps_store_error_counterexample :
    ¬ (∀ name ∈ registryNames, ∀ e : String, ∃ m,
        handlerStoreError name e = .thrown m ∧ containsSub m e = true) := by
  intro h
  obtain ⟨m, hm, hc⟩ := h "triggerSelfHealing" (by decide) "boom"
  have hv : handlerStoreError "triggerSelfHealing" "boom"
      = HandlerOutcome.thrown "Failed to complete self-healing routine" := by
    decide
  rw [hv] at hm
  injection hm with hme
  rw [← hme] at hc
  exact absurd hc (by decide)

/-- C3 (amended): the seven one-shot insert/select handlers rethrow the
store's error message `e` inside their own failure message; but
`triggerSelfHealing` throws a fixed generic message that drops `e`,
`getSystemHealth` succeeds with the degraded-status message, and
`getMachineAnalytics` dies on an unhandled null dereference. -/
theorem handler_store_error_behavior (e : String) :
    (∀ name ∈ wrappingHandlerNames, ∃ m,
        handlerStoreError name e = .thrown m ∧ containsSub m e = true)
    ∧ handlerStoreError "triggerSelfHealing" e
        = .thrown "Failed to complete self-healing routine"
    ∧ handlerStoreError "getSystemHealth" e
        = .ok "System issues detected. Some services may be degraded."
    ∧ handlerStoreError "getMachineAnalytics" e = .crashed := by
  refine ⟨?_, rfl, rfl, rfl⟩
  intro name hname
  simp only [wrappingHandlerNames, List.mem_cons,
    List.not_mem_nil, or_false] at hname
  rcases hname with rfl | rfl | rfl | rfl | rfl | rfl | rfl
  · exact ⟨"Failed to add laundromat: " ++ e, rfl, containsSub_append _ _⟩
  · exact ⟨"Failed to add machine: " ++ e, rfl, containsSub_append _ _⟩
  · exact ⟨"Failed to add user: " ++ e, rfl, containsSub_append _ _⟩
  · exact ⟨"Failed to add driver: " ++ e, rfl, containsSub_append _ _⟩
  · exact ⟨"Failed to get offline machines: " ++ e, rfl,
      containsSub_append _ _⟩
  · exact ⟨"Failed to get pending bookings: " ++ e, rfl,
      containsSub_append _ _⟩
  · exact ⟨"Failed to get revenue analytics: " ++ e, rfl,
      containsSub_append _ _⟩

/-- Witness for the amended C3 at `e = "boom"`, extracting the
`addLaundromat` instance. -/
theorem handler_store_error_behavior_witness :
    ∃ m, handlerStoreError "addLaundromat" "boom" = .thrown m
      ∧ containsSub m "boom" = true :=
  (handler_store_error_behavior "boom").1 "addLaundromat" (by decide)

/-- C7: for any store result, the count reported by
`getOfflineMachines` / `getPendingBookings` equals the length of the id
list rendered in the same summary string. -/
theorem reported_count_eq_id_list_length (machines : List Machine)
    (bookings : List Booking) :
    getOfflineMachines (.ok machines)
      = .ok ("Found "
        ++ toString (machines.map (fun m => m.machine_id)).length
        ++ " offline machines: "
        ++ String.intercalate ", " (machines.map (fun m => m.machine_id)))
    ∧ getPendingBookings (.ok bookings)
      = .ok ("Found "
        ++ toString (bookings.map (fun b => b.booking_id)).length
        ++ " pending bookings: "
        ++ String.intercalate ", " (bookings.map (fun b => b.booking_id))) := by
  constructor <;>
    simp [getOfflineMachines, getPendingBookings, List.length_map]

/-- Zero dollars rounds to zero cents. -/
theorem centsOf_zero : centsOf 0 = 0 := by
  show Rat.floor ((0 : ℚ) * 100 + 1 / 2) = 0
  have h : ((0 : ℚ) * 100 + 1 / 2) = 1 / 2 := by norm_num
  rw [h]
  show ⌊(1 / 2 : ℚ)⌋ = 0
  rw [Int.floor_eq_iff]
  norm_num

/-- `toFixed(2)` renders zero as "0.00". -/
theorem toFixed2_zero : toFixed2 0 = "0.00" := by
  simp [toFixed2, centsOf_zero]
  rfl

/-- C8: with no machine carrying a non-null `average_monthly_revenue`,
`getRevenueAnalytics` succeeds reporting total $0.00 and average $0.00;
in general the mean divides by `max 1 (number of eligible machines)`. -/
theorem getRevenueAnalytics_empty_and_denominator
    (machines : List Machine) (data : List (Option ℚ)) :
    (selectRevenues machines = [] →
      getRevenueAnalytics (.ok (selectRevenues machines))
        = .ok "Total Monthly Revenue: $0.00, Average per Machine: $0.00")
    ∧ (revenueTotals data).2
        = (revenueTotals data).1 / (max 1 (data.length : ℚ)) := by
  constructor
  · intro h
    rw [h]
    have e1 : (revenueTotals []).1 = 0 := rfl
    have e2 : (revenueTotals []).2 = 0 := by norm_num [revenueTotals]
    simp [getRevenueAnalytics, e1, e2, toFixed2_zero]
  · show (revenueTotals data).1
        / (if data.length = 0 then 1 else (data.length : ℚ)) = _
    rcases Nat.eq_zero_or_pos data.length with h0 | hpos
    · rw [h0]
      norm_num
    · have hne : data.length ≠ 0 := Nat.pos_iff_ne_zero.mp hpos
      have h1 : (1 : ℚ) ≤ (data.length : ℚ) := by exact_mod_cast hpos
      rw [if_neg hne, max_eq_right h1]

/-- Witness for C8 on the empty machine list. -/
theorem getRevenueAnalytics_empty_witness :
    getRevenueAnalytics (.ok (selectRevenues []))
      = .ok "Total Monthly Revenue: $0.00, Average per Machine: $0.00" :=
  (getRevenueAnalytics_empty_and_denominator [] []).1 rfl

/-- C10: the `current_status` that `addMachine` inserts is "Available"
when the argument is absent or the empty string, is never the empty
string, and is the argument verbatim whenever that is non-empty. -/
theorem addMachine_status_defaulting (machine_id laundromat_id
    machine_type : String) (current_status : Option String) (now : Int)
    (res : Except String Unit) :
    ((current_status = none ∨ current_status = some "") →
      (addMachine machine_id laundromat_id machine_type current_status
        now res).1.current_status = "Available")
    ∧ (addMachine machine_id laundromat_id machine_type current_status
        now res).1.current_status ≠ ""
    ∧ (∀ s, current_status = some s → s ≠ "" →
      (addMachine machine_id laundromat_id machine_type current_status
        now res).1.current_status = s) := by
  refine ⟨?_, ?_, ?_⟩
  · rintro (rfl | rfl) <;> simp [addMachine, addMachineRow, jsOrString]
  · rcases current_status with _ | s
    · simp [addMachine, addMachineRow, jsOrString]
    · by_cases hs : s = ""
      · subst hs
        simp [addMachine, addMachineRow, jsOrString]
      · simp [addMachine, addMachineRow, jsOrString, hs]
  · rintro s rfl hs
    simp [addMachine, addMachineRow, jsOrString, hs]

/-- Witness for C10: absent and empty statuses default to "Available",
a concrete non-empty status is inserted verbatim. -/
theorem addMachine_status_defaulting_witness :
    (addMachine "M-9" "L-1" "Washer" none 0 (.ok ())).1.current_status
        = "Available"
    ∧ (addMachine "M-9" "L-1" "Washer" (some "") 0
        (.ok ())).1.current_status = "Available"
    ∧ (addMachine "M-9" "L-1" "Washer" (some "Offline") 0
        (.ok ())).1.current_status = "Offline" :=
  ⟨(addMachine_status_defaulting "M-9" "L-1" "Washer" none 0 (.ok ())).1
      (Or.inl rfl),
   (addMachine_status_defaulting "M-9" "L-1" "Washer" (some "") 0
      (.ok ())).1 (Or.inr rfl),
   (addMachine_status_defaulting "M-9" "L-1" "Washer" (some "Offline") 0
      (.ok ())).2.2 "Offline" rfl (by decide)⟩

/-- `x || d` is non-empty whenever the default `d` is. -/
theorem jsOrString_ne_empty (x : Option String) (d : String)
    (hd : d ≠ "") : jsOrString x d ≠ "" := by
  rcases x with _ | s
  · simpa [jsOrString] using hd
  · by_cases hs : s = ""
    · simpa [jsOrString, hs] using hd
    · simp [jsOrString, hs]

/-- C4: when the completion response carries no function-call signal,
the dispatch loop invokes nothing and replies with the model's message
content exactly; if the content is empty or absent, the reply is the
generic fallback string. -/
theorem dispatch_no_signal_reply (choice : Option Choice)
    (registry : List String) (parse : String → Except String ArgsBag)
    (run : String → ArgsBag → Except String String)
    (followupContent : Option String)
    (h : functionCallSignal choice = none) :
    (dispatchPOST choice registry parse run followupContent).invoked = none
    ∧ (∀ s, choiceContent choice = some s → s ≠ "" →
        (dispatchPOST choice registry parse run followupContent).result
          = .ok s)
    ∧ ((choiceContent choice = none ∨ choiceContent choice = some "") →
        (dispatchPOST choice registry parse run followupContent).result
          = .ok "Sorry, I could not generate a response.") := by
  refine ⟨?_, ?_, ?_⟩
  · simp [dispatchPOST, h]
  · intro s hs hne
    simp [dispatchPOST, h, hs, jsOrString, hne]
  · rintro (hc | hc) <;> simp [dispatchPOST, h, hc, jsOrString]

/-- Witness for C4: a "stop" choice with content "Hello" is relayed
verbatim; an absent choice yields the fallback. -/
theorem dispatch_no_signal_reply_witness :
    (dispatchPOST (some ⟨some "stop", some ⟨some "Hello", none⟩⟩)
      registryNames (fun _ => .ok []) (fun _ _ => .ok "") none).result
      = .ok "Hello"
    ∧ (dispatchPOST none registryNames (fun _ => .ok [])
        (fun _ _ => .ok "") none).result
      = .ok "Sorry, I could not generate a response." :=
  ⟨(dispatch_no_signal_reply
      (some ⟨some "stop", some ⟨some "Hello", none⟩⟩)
      registryNames (fun _ => .ok []) (fun _ _ => .ok "") none
      rfl).2.1 "Hello" rfl (by decide),
   (dispatch_no_signal_reply none registryNames (fun _ => .ok [])
      (fun _ _ => .ok "") none rfl).2.2 (Or.inl rfl)⟩

/-- C5 counterexample: the guard `if (functionMap[name])` is a truthy
property lookup that also hits members inherited from
`Object.prototype`, so the claim fails for unregistered names drawn
from there. With content "Try again": the name "__proto__" is not
registered, yet the dispatch FAILS (the inherited value is not
callable); the name "toString" is not registered, yet the inherited
member IS called and the reply is the follow-up fallback
"Action completed." — neither the content nor the generic fallback. -/
theorem dispatch_unregistered_counterexample :
    ("__proto__" ∉ registryNames
      ∧ (dispatchPOST (some ⟨some "function_call",
          some ⟨some "Try again", some ⟨"__proto__", ""⟩⟩⟩)
        registryNames (fun _ => .ok []) (fun _ _ => .ok "") none).result
        = .error "TypeError: functionMap[name] is not a function")
    ∧ ("toString" ∉ registryNames
      ∧ (dispatchPOST (some ⟨some "function_call",
          some ⟨some "Try again", some ⟨"toString", ""⟩⟩⟩)
        registryNames (fun _ => .ok []) (fun _ _ => .ok "") none).invoked
        = some ("toString", [])
      ∧ (dispatchPOST (some ⟨some "function_call",
          some ⟨some "Try again", some ⟨"toString", ""⟩⟩⟩)
        registryNames (fun _ => .ok []) (fun _ _ => .ok "") none).result
        = .ok "Action completed.") :=
  ⟨⟨by decide, rfl⟩, ⟨by decide, rfl, rfl⟩⟩

/-- C5 (amended): a function-call signal naming a function that is
neither registered nor inherited from `Object.prototype` invokes
nothing, does not fail, and yields a non-empty reply (the choice's
textual content when present and non-empty, otherwise the generic
fallback). But on a name inherited from `Object.prototype` the truthy
guard passes and the loop calls the inherited member in place of a
handler: for the callable members "toString" and "constructor" it then
returns the follow-up completion's reply instead of the first
response's content, and for "__proto__" (whose value is not callable)
the call throws a TypeError that escapes as a 500. -/
theorem dispatch_unregistered_behavior (choice : Option Choice)
    (fc : FunctionCall)
    (parse : String → Except String ArgsBag)
    (run : String → ArgsBag → Except String String)
    (followupContent : Option String)
    (h : functionCallSignal choice = some fc)
    (hn : fc.name ∉ registryNames) :
    (fc.name ∉ objectPrototypeProps →
      (dispatchPOST choice registryNames parse run
          followupContent).invoked = none
      ∧ (∃ r, (dispatchPOST choice registryNames parse run
          followupContent).result = .ok r ∧ r ≠ "")
      ∧ (∀ s, choiceContent choice = some s → s ≠ "" →
          (dispatchPOST choice registryNames parse run
            followupContent).result = .ok s)
      ∧ ((choiceContent choice = none ∨ choiceContent choice = some "") →
          (dispatchPOST choice registryNames parse run
            followupContent).result
            = .ok "Sorry, I could not generate a response."))
    ∧ (fc.name ∈ objectPrototypeProps →
        ∃ args, (dispatchPOST choice registryNames parse run
          followupContent).invoked = some (fc.name, args))
    ∧ (fc.name = "toString" ∨ fc.name = "constructor" →
        (dispatchPOST choice registryNames parse run
          followupContent).result
          = .ok (jsOrString followupContent "Action completed."))
    ∧ (fc.name = "__proto__" →
        (dispatchPOST choice registryNames parse run
          followupContent).result
          = .error "TypeError: functionMap[name] is not a function") := by
  refine ⟨?_, ?_, ?_, ?_⟩
  · intro hp
    refine ⟨?_, ?_, ?_, ?_⟩
    · simp [dispatchPOST, h, hn, hp]
    · refine ⟨jsOrString (choiceContent choice)
        "Sorry, I could not generate a response.", ?_, ?_⟩
      · simp [dispatchPOST, h, hn, hp]
      · exact jsOrString_ne_empty _ _ (by decide)
    · intro s hs hne
      simp [dispatchPOST, h, hn, hp, hs, jsOrString, hne]
    · rintro (hc | hc) <;> simp [dispatchPOST, h, hn, hp, hc, jsOrString]
  · intro hp
    refine ⟨(match parse fc.arguments with | .ok a => a | .error _ => []),
      ?_⟩
    cases hcall : callInheritedProp fc.name <;>
      simp [dispatchPOST, h, hn, hp, hcall]
  · intro he
    have hp : fc.name ∈ objectPrototypeProps := by
      rcases he with he | he <;> rw [he] <;> decide
    have hcall : callInheritedProp fc.name = .ok () := by
      rcases he with he | he
      · rw [he]
        rfl
      · rw [he]
        rfl
    simp [dispatchPOST, h, hn, hp, hcall]
  · intro he
    have hp : fc.name ∈ objectPrototypeProps := by
      rw [he]
      decide
    have hcall : callInheritedProp fc.name
        = .error "TypeError: functionMap[name] is not a function" := by
      rw [he]
      rfl
    simp [dispatchPOST, h, hn, hp, hcall]

/-- Witness for the amended C5: "notARealFn" (neither registered nor
inherited) falls through to the non-empty content reply; "toString"
yields the follow-up fallback reply; "__proto__" makes the dispatch
fail. -/
theorem dispatch_unregistered_behavior_witness :
    (dispatchPOST (some ⟨some "function_call",
        some ⟨some "Try again", some ⟨"notARealFn", ""⟩⟩⟩)
      registryNames (fun _ => .ok []) (fun _ _ => .ok "") none).result
      = .ok "Try again"
    ∧ (dispatchPOST (some ⟨some "function_call",
        some ⟨none, some ⟨"toString", ""⟩⟩⟩)
      registryNames (fun _ => .ok []) (fun _ _ => .ok "") none).result
      = .ok "Action completed."
    ∧ (dispatchPOST (some ⟨some "function_call",
        some ⟨none, some ⟨"__proto__", ""⟩⟩⟩)
      registryNames (fun _ => .ok []) (fun _ _ => .ok "") none).result
      = .error "TypeError: functionMap[name] is not a function" :=
  ⟨((dispatch_unregistered_behavior
      (some ⟨some "function_call",
        some ⟨some "Try again", some ⟨"notARealFn", ""⟩⟩⟩)
      ⟨"notARealFn", ""⟩ (fun _ => .ok []) (fun _ _ => .ok "") none
      rfl (by decide)).1 (by decide)).2.2.1 "Try again" rfl (by decide),
   (dispatch_unregistered_behavior
      (some ⟨some "function_call", some ⟨none, some ⟨"toString", ""⟩⟩⟩)
      ⟨"toString", ""⟩ (fun _ => .ok []) (fun _ _ => .ok "") none
      rfl (by decide)).2.2.1 (Or.inl rfl),
   (dispatch_unregistered_behavior
      (some ⟨some "function_call", some ⟨none, some ⟨"__proto__", ""⟩⟩⟩)
      ⟨"__proto__", ""⟩ (fun _ => .ok []) (fun _ _ => .ok "") none
      rfl (by decide)).2.2.2 rfl⟩

/-- C6: when the argument payload of a registered function's call does
not parse, the handler is still invoked, with the empty argument bag,
and the whole dispatch behaves exactly as if the payload had parsed to
the empty bag — no parse error reaches the model or the caller. -/
theorem dispatch_parse_failure_empty_args (choice : Option Choice)
    (fc : FunctionCall) (registry : List String)
    (parse : String → Except String ArgsBag)
    (run : String → ArgsBag → Except String String)
    (followupContent : Option String) (e : String)
    (h : functionCallSignal choice = some fc)
    (hmem : fc.name ∈ registry)
    (hp : parse fc.arguments = .error e) :
    (dispatchPOST choice registry parse run followupContent).invoked
        = some (fc.name, [])
    ∧ dispatchPOST choice registry parse run followupContent
        = dispatchPOST choice registry (fun _ => .ok []) run
            followupContent := by
  constructor
  · cases hr : run fc.name [] <;> simp [dispatchPOST, h, hmem, hp, hr]
  · cases hr : run fc.name [] <;> simp [dispatchPOST, h, hmem, hp, hr]

/-- Witness for C6: a malformed payload for the registered
"getSystemHealth" still invokes it, with the empty bag. -/
theorem dispatch_parse_failure_empty_args_witness :
    (dispatchPOST (some ⟨some "function_call",
        some ⟨none, some ⟨"getSystemHealth", "not json"⟩⟩⟩)
      registryNames (fun _ => .error "Unexpected token")
      (fun _ _ => .ok "System is healthy. All services operational.")
      none).invoked = some ("getSystemHealth", []) :=
  (dispatch_parse_failure_empty_args
    (some ⟨some "function_call",
      some ⟨none, some ⟨"getSystemHealth", "not json"⟩⟩⟩)
    ⟨"getSystemHealth", "not json"⟩
    registryNames (fun _ => .error "Unexpected token")
    (fun _ _ => .ok "System is healthy. All services operational.")
    none "Unexpected token" rfl (by decide) rfl).1

/-- C9 counterexample: on a transport error (rejected fetch), the
widget appends NO apology turn: for input "hi" on empty history the
resulting history is just the user turn, not user turn plus apology
turn as the claim demands. -/
theorem client_transport_error_counterexample :
    (sendMessage "hi" [] FetchOutcome.transportError).history
      = [⟨"user", "hi"⟩]
    ∧ (sendMessage "hi" [] FetchOutcome.transportError).history
      ≠ [⟨"user", "hi"⟩,
         ⟨"agent", "Sorry, there was an error contacting the agent."⟩] := by
  constructor
  · decide
  · decide

/-- C9 (amended): on a non-2xx response the history gains exactly the
appended user turn followed by one "agent" turn holding the fixed
apology, with exactly one network call (no retry); on a transport
error the rejection propagates out of `sendMessage`, so the user turn
stays appended but no agent turn is added, still with exactly one
network call. -/
theorem client_failure_handling (input : String) (history : List Turn)
    (h : jsTrim input ≠ "") :
    (sendMessage input history FetchOutcome.httpError).history
      = history ++ [⟨"user", input⟩,
         ⟨"agent", "Sorry, there was an error contacting the agent."⟩]
    ∧ (sendMessage input history FetchOutcome.httpError).networkCalls = 1
    ∧ (sendMessage input history FetchOutcome.transportError).history
        = history ++ [⟨"user", input⟩]
    ∧ (sendMessage input history FetchOutcome.transportError).networkCalls
        = 1 := by
  refine ⟨?_, ?_, ?_, ?_⟩ <;> simp [sendMessage, agentChat, h]

/-- Witness for the amended C9 at input "hi" on the empty history. -/
theorem client_failure_handling_witness :
    (sendMessage "hi" [] FetchOutcome.httpError).history
      = [⟨"user", "hi"⟩,
         ⟨"agent", "Sorry, there was an error contacting the agent."⟩]
    ∧ (sendMessage "hi" [] FetchOutcome.transportError).history
      = [⟨"user", "hi"⟩] := by
  have h := client_failure_handling "hi" [] (by decide)
  exact ⟨by simpa using h.1, by simpa using h.2.2.1⟩
